import Mathlib

/-!
# Verification of the merge operation family (`src/ops/merge.rs`)

Shallow embedding of the merge-menu dispatch code of the repository.
Continuations are modelled as pure functions from an environment (the
opaque external collaborators: git queries and the process execution
engine), the session state, and a resolved argument, to an outcome
together with an ordered trace of observable session events (menu
closing, process spawning, repository steps).
-/

namespace Gitu

/-- The strategy argument enum of `merge.rs` (`StrategyArgValue`). -/
inductive StrategyArgValue
  | Resolve
  | Recursive
  | Octopus
  | Ours
  | Subtree
  deriving DecidableEq, Repr

/-- `StrategyArgValue::from_str`: the error type is `Infallible`,
embedded as `Empty`.  The source matches any input with `_` and
returns `Ok(StrategyArgValue::Ours)`. -/
def StrategyArgValue.from_str (_s : String) : Except Empty StrategyArgValue :=
  Except.ok StrategyArgValue.Ours

/-- Modelled from the spec: the Option Model of §3 (`menu::arg::Arg`
is not part of the provided source).  A boolean flag with a canonical
token, a label, and an activation state; `new_flag` sets the
activation state to the given default. -/
structure Arg where
  canonical_token : String
  label : String
  active : Bool
  deriving DecidableEq, Repr

/-- Modelled from the spec: `Arg::new_flag(token, label, default)`
constructs a flag whose activation state is the default. -/
def Arg.new_flag (token label : String) (default : Bool) : Arg :=
  { canonical_token := token, label := label, active := default }

/-- `init_args()` of `merge.rs`: the two flags of the merge menu
(the strategy argument is commented out in the source). -/
def init_args : List Arg :=
  [Arg.new_flag "--ff-only" "Fast-forward only" false,
   Arg.new_flag "--no-ff" "No fast-forward" false]

/-- Modelled from the spec: the Pending Menu of §3 (the `Menu` type is
not part of the provided source), an ordered sequence of options. -/
structure Menu where
  entries : List Arg
  deriving DecidableEq, Repr

/-- Modelled from the spec: `render()` of §4.1 (`Menu::args` in the
source's callers): emit the canonical token of each option, in
declaration order, iff it is active. -/
def Menu.args (m : Menu) : List String :=
  (m.entries.filter (fun a => a.active)).map (fun a => a.canonical_token)

/-- The slice of the session `State` the merge continuations read:
the optional open pending menu (`state.pending_menu`). -/
structure State where
  pending_menu : Option Menu
  deriving DecidableEq, Repr

/-- Outcome of invoking a continuation: `ok`/`err` embed Rust's
`Res<()> = Result<(), Error>`; `panic` embeds a Rust panic
(`unwrap` on `None`, or `todo!()`), which is not an error result. -/
inductive Outcome
  | ok
  | err (msg : String)
  | panic (msg : String)
  deriving DecidableEq, Repr

def Outcome.isPanic : Outcome → Bool
  | .panic _ => true
  | _ => false

def Outcome.isErr : Outcome → Bool
  | .err _ => true
  | _ => false

/-- Lift the result of an external call (which returns `Res<()>`,
hence can fail but cannot panic) into an `Outcome`. -/
def Outcome.ofExcept : Except String Unit → Outcome
  | .ok _ => .ok
  | .error e => .err e

/-- Observable session events, in the order the continuation performs
them: closing the pending menu, spawning the external process
(asynchronously or interactively, with its full token list), and the
repository steps of `dissolve`. -/
inductive Event
  | close_menu
  | spawn_async (tokens : List String)
  | spawn_interactive (tokens : List String)
  | resolve_upstream
  | push_upstream (branch : String)
  | checkout_branch (branch : String)
  | query_head
  deriving DecidableEq, Repr

/-- The opaque external collaborators consumed by the continuations:
the process execution engine (`state.run_cmd_async` and its
interactive counterpart in the source, both returning `Res<()>`), and
the git queries used by `dissolve` (`git::upstream_branch_name`,
`push::set_upstream_and_push`, `checkout::checkout`, `git::get_head`,
`selected_rev`).  None of these is part of the provided source; each
is given as an unconstrained function so every theorem holds for all
of their behaviours. -/
structure Env where
  runCmdAsync : List String → Except String Unit
  runCmdInteractive : List String → Except String Unit
  upstream_branch_name : Except String String
  set_upstream_and_push : String → Except String Unit
  checkout : String → Except String Unit
  get_head : Except String String
  selected_rev : Option String

/-- The panic message of `Option::unwrap` on `None`. -/
def unwrapNoneMsg : String := "called Option::unwrap() on a None value"

/-- The panic message of `todo!()`. -/
def todoMsg : String := "not yet implemented"

namespace MergeAction

/-- `MergeAction::plain`: `git merge <menu args> <rev>`; reads the
pending menu through `unwrap` (panics when no menu is open), closes
the menu, then runs the command asynchronously. -/
def plain (env : Env) (state : State) (rev : String) : Outcome × List Event :=
  match state.pending_menu with
  | none => (.panic unwrapNoneMsg, [])
  | some menu =>
    let tokens := ["merge"] ++ menu.args ++ [rev]
    (Outcome.ofExcept (env.runCmdAsync tokens), [.close_menu, .spawn_async tokens])

/-- `MergeAction::edit`: `git merge --edit <menu args> <rev>`; closes
the menu, then runs the command interactively. -/
def edit (env : Env) (state : State) (rev : String) : Outcome × List Event :=
  match state.pending_menu with
  | none => (.panic unwrapNoneMsg, [])
  | some menu =>
    let tokens := ["merge", "--edit"] ++ menu.args ++ [rev]
    (Outcome.ofExcept (env.runCmdInteractive tokens),
     [.close_menu, .spawn_interactive tokens])

/-- `MergeAction::no_commit`: `git merge --no-commit [--no-ff] <menu
args> <rev>`, injecting `--no-ff` iff no rendered menu argument equals
`"--no-ff"`; closes the menu, then runs interactively. -/
def no_commit (env : Env) (state : State) (rev : String) : Outcome × List Event :=
  match state.pending_menu with
  | none => (.panic unwrapNoneMsg, [])
  | some menu =>
    let args := menu.args
    let tokens := ["merge", "--no-commit"]
      ++ (if args.any (fun arg => arg == "--no-ff") then [] else ["--no-ff"])
      ++ args ++ [rev]
    (Outcome.ofExcept (env.runCmdInteractive tokens),
     [.close_menu, .spawn_interactive tokens])

/-- `MergeAction::absorb`: the body is `todo!()`, a panic; no event is
performed and no error result is returned. -/
def absorb (_env : Env) (_state : State) (_branch_name : String) :
    Outcome × List Event :=
  (.panic todoMsg, [])

/-- `MergeAction::squash`: `git merge --squash <menu args> <rev>`;
closes the menu, then runs asynchronously. -/
def squash (env : Env) (state : State) (rev : String) : Outcome × List Event :=
  match state.pending_menu with
  | none => (.panic unwrapNoneMsg, [])
  | some menu =>
    let tokens := ["merge", "--squash"] ++ menu.args ++ [rev]
    (Outcome.ofExcept (env.runCmdAsync tokens), [.close_menu, .spawn_async tokens])

/-- `MergeAction::dissolve`: resolve the upstream tracking branch,
push to it, check out the destination branch, then merge: `absorb` on
the head branch name when `get_head` succeeds, otherwise `edit` on the
selected revision (erroring when none is selected).  Each of the first
three steps propagates its failure with `?`, skipping all later
steps. -/
def dissolve (env : Env) (state : State) (destination_branch : String) :
    Outcome × List Event :=
  match env.upstream_branch_name with
  | .error e => (.err e, [.resolve_upstream])
  | .ok upstream =>
    match env.set_upstream_and_push upstream with
    | .error e => (.err e, [.resolve_upstream, .push_upstream upstream])
    | .ok _ =>
      match env.checkout destination_branch with
      | .error e =>
        (.err e,
         [.resolve_upstream, .push_upstream upstream,
          .checkout_branch destination_branch])
      | .ok _ =>
        let done := [Event.resolve_upstream, .push_upstream upstream,
                     .checkout_branch destination_branch, .query_head]
        match env.get_head with
        | .ok name =>
          let r := absorb env state name
          (r.1, done ++ r.2)
        | .error _ =>
          match env.selected_rev with
          | none => (.err "Revision must be selected", done)
          | some rev =>
            let r := edit env state rev
            (r.1, done ++ r.2)

end MergeAction

/-- The `MergeAction` enum of `merge.rs`: the idle merge-menu action
catalogue (Preview is commented out in the source). -/
inductive MergeAction
  | Plain
  | Edit
  | NoCommit
  | Absorb
  | Squash
  | Dissolve
  deriving DecidableEq, Repr

/-- `Display for MergeAction`: the exhaustive match of `fmt`. -/
def MergeAction.display : MergeAction → String
  | .Plain => "Merge"
  | .Edit => "Merge and edit message"
  | .NoCommit => "Merge but don\x27t commit"
  | .Absorb => "Absorb"
  | .Squash => "Squash merge"
  | .Dissolve => "Dissolve"

/-- The `MergeState` enum of `merge.rs`: the merge-in-progress action
catalogue. -/
inductive MergeState
  | Commit
  | Abort
  deriving DecidableEq, Repr

/-- `MergeState::abort`: `git merge --abort`; closes the menu, then
runs interactively. -/
def MergeState.abort (env : Env) (_state : State) : Outcome × List Event :=
  (Outcome.ofExcept (env.runCmdInteractive ["merge", "--abort"]),
   [.close_menu, .spawn_interactive ["merge", "--abort"]])

/-- `MergeState::display`: the exhaustive match of `display`. -/
def MergeState.display : MergeState → String
  | .Commit => "commit"
  | .Abort => "abort"

/-- Modelled from the spec: the opaque selection context
(`items::TargetData` is not part of the provided source); the merge
`get_action` implementations ignore it (`_target`), so a single
placeholder inhabitant suffices. -/
inductive TargetData
  | selection
  deriving DecidableEq, Repr

/-- Identity of a continuation bound into an `Action`. -/
inductive ContId
  | plain
  | edit
  | no_commit
  | absorb
  | squash
  | dissolve
  | commit_create
  | merge_abort
  deriving DecidableEq, Repr

/-- Identity of a default resolver passed to
`create_prompt_with_default`. -/
inductive Resolver
  | selected_rev
  | latest_local_branch
  deriving DecidableEq, Repr

/-- An `Action` as produced by the merge dispatch code: either a
prompt-wrapped continuation (`create_prompt_with_default(label, cont,
default_fn, hide_menu)`) or a direct continuation (`Rc::new(f)`). -/
inductive Action
  | prompt (label : String) (cont : ContId) (default_fn : Resolver) (hide_menu : Bool)
  | direct (cont : ContId)
  deriving DecidableEq, Repr

/-- `OpTrait::get_action for MergeAction`: an exhaustive match
building a prompt-wrapped action, then `Some(action)`. -/
def MergeAction.get_action (a : MergeAction) (_target : Option TargetData) :
    Option Action :=
  let action : Action := match a with
    | .Plain => .prompt "Merge" .plain .selected_rev true
    | .Edit => .prompt "Merge" .edit .selected_rev true
    | .NoCommit => .prompt "Merge" .no_commit .selected_rev true
    | .Absorb => .prompt "Absorb branch" .absorb .latest_local_branch true
    | .Squash => .prompt "Squash" .squash .selected_rev true
    | .Dissolve => .prompt "Merge current branch into" .dissolve .latest_local_branch true
  some action

/-- `OpTrait::get_action for MergeState`: an exhaustive match picking
a direct continuation, then `Some(Rc::new(action))`. -/
def MergeState.get_action (s : MergeState) (_target : Option TargetData) :
    Option Action :=
  let action : ContId := match s with
    | .Commit => .commit_create
    | .Abort => .merge_abort
  some (.direct action)

/-- The idle catalogue: the six `MergeAction` variants in declaration
order. -/
def idleCatalogue : List MergeAction :=
  [.Plain, .Edit, .NoCommit, .Absorb, .Squash, .Dissolve]

/-- The in-progress catalogue: the two `MergeState` variants in
declaration order. -/
def inProgressCatalogue : List MergeState :=
  [.Commit, .Abort]

/-- `true` iff no spawn event occurs before the first `close_menu`
event of the trace: the menu is closed before any process launch. -/
def noSpawnBeforeClose : List Event → Bool
  | [] => true
  | .close_menu :: _ => true
  | .spawn_async _ :: _ => false
  | .spawn_interactive _ :: _ => false
  | _ :: rest => noSpawnBeforeClose rest

/-- The concatenation of the token lists of every process spawned in
a trace, in order. -/
def spawnTokens : List Event → List String
  | [] => []
  | .spawn_async t :: rest => t ++ spawnTokens rest
  | .spawn_interactive t :: rest => t ++ spawnTokens rest
  | _ :: rest => spawnTokens rest

/-- `true` iff the trace spawns an asynchronous (non-blocking)
process. -/
def spawnsAsync (tr : List Event) : Bool :=
  tr.any fun e => match e with
    | .spawn_async _ => true
    | _ => false

/-- `true` iff the trace spawns an interactive (terminal-handoff)
process. -/
def spawnsInteractive (tr : List Event) : Bool :=
  tr.any fun e => match e with
    | .spawn_interactive _ => true
    | _ => false

/-- Concrete environment in which every external call succeeds: the
upstream branch resolves, push and checkout succeed, HEAD is the named
branch `feature`, and `main` is the selected revision. -/
def env0 : Env where
  runCmdAsync := fun _ => .ok ()
  runCmdInteractive := fun _ => .ok ()
  upstream_branch_name := .ok "origin/feature"
  set_upstream_and_push := fun _ => .ok ()
  checkout := fun _ => .ok ()
  get_head := .ok "feature"
  selected_rev := some "main"

/-- `env0` with the upstream tracking branch unresolvable. -/
def envNoUpstream : Env :=
  { env0 with upstream_branch_name := .error "no upstream" }

/-- `env0` with checkout failing. -/
def envCheckoutFail : Env :=
  { env0 with checkout := fun _ => .error "checkout failed" }

/-- `env0` with a detached HEAD (`get_head` fails). -/
def envDetached : Env :=
  { env0 with get_head := .error "head is not a branch" }

/-- An empty pending menu (no options toggled). -/
def menu0 : Menu := ⟨[]⟩

/-- A pending menu whose only option is `--no-ff`, toggled active. -/
def menuNoFF : Menu := ⟨[Arg.new_flag "--no-ff" "No fast-forward" true]⟩

/-- A session state whose pending menu is open and empty. -/
def state0 : State := ⟨some menu0⟩

/-- A session state whose open pending menu has `--no-ff` active. -/
def stateNoFF : State := ⟨some menuNoFF⟩

/-- A session state with no open pending menu. -/
def stateClosed : State := ⟨none⟩

/-- Helper: lifting a `Res<()>` result never yields a panic. -/
theorem Outcome.ofExcept_isPanic (r : Except String Unit) :
    (Outcome.ofExcept r).isPanic = false := by
  cases r <;> rfl

/-- C6: for every input string, `StrategyArgValue::from_str` returns
`Ok` with the `Ours` variant; it never returns any other variant and,
its error type being `Infallible`, it never returns an error. -/
theorem from_str_always_ok_ours (s : String) :
    StrategyArgValue.from_str s = Except.ok StrategyArgValue.Ours := rfl

/-- C8: `display` is defined and non-empty for every variant of both
merge catalogues; the matches are exhaustive (totality of the Lean
functions mirrors the fallthrough-free Rust matches). -/
theorem display_total_nonempty :
    (∀ a : MergeAction, a.display ≠ "") ∧ (∀ s : MergeState, s.display ≠ "") := by
  constructor
  · intro a; cases a <;> simp [MergeAction.display]
  · intro s; cases s <;> simp [MergeState.display]

/-- C7: the in-progress catalogue is exactly \x7bCommit, Abort\x7d and
the idle catalogue exactly the six `MergeAction` variants, each
without duplicates; the catalogues are disjoint (no action of one
occurs in the other, witnessed by their display identities). -/
theorem catalogues_exact_and_disjoint :
    (∀ a : MergeAction, a ∈ idleCatalogue) ∧ idleCatalogue.Nodup ∧
      idleCatalogue.length = 6 ∧
    (∀ s : MergeState, s ∈ inProgressCatalogue) ∧ inProgressCatalogue.Nodup ∧
      inProgressCatalogue.length = 2 ∧
    (∀ a ∈ idleCatalogue, ∀ s ∈ inProgressCatalogue,
      MergeAction.display a ≠ MergeState.display s) := by
  refine ⟨?_, ?_, rfl, ?_, ?_, rfl, ?_⟩
  · intro a; cases a <;> simp [idleCatalogue]
  · decide
  · intro s; cases s <;> simp [inProgressCatalogue]
  · decide
  · intro a _ s _; cases a <;> cases s <;>
      simp [MergeAction.display, MergeState.display]

/-- C9: `get_action` returns `Some` action for every variant of both
merge catalogues and every selection context, including `None`: no
merge operation is ever reported unavailable. -/
theorem get_action_always_some :
    (∀ (a : MergeAction) (t : Option TargetData), (a.get_action t).isSome = true) ∧
    (∀ (s : MergeState) (t : Option TargetData), (s.get_action t).isSome = true) := by
  constructor
  · intro a t; cases a <;> rfl
  · intro s t; cases s <;> rfl

/-- C4: for every environment, state and resolved argument, each
process-spawning merge continuation (`plain`, `edit`, `no_commit`,
`squash`, and the in-progress `abort`) closes the pending menu before
any spawn event occurs in its trace. -/
theorem close_menu_before_spawn (env : Env) (state : State) (rev : String) :
    noSpawnBeforeClose (MergeAction.plain env state rev).2 = true ∧
    noSpawnBeforeClose (MergeAction.edit env state rev).2 = true ∧
    noSpawnBeforeClose (MergeAction.no_commit env state rev).2 = true ∧
    noSpawnBeforeClose (MergeAction.squash env state rev).2 = true ∧
    noSpawnBeforeClose (MergeState.abort env state).2 = true := by
  cases h : state.pending_menu <;>
    simp [MergeAction.plain, MergeAction.edit, MergeAction.no_commit,
      MergeAction.squash, MergeState.abort, h, noSpawnBeforeClose]

/-- C2: with a pending menu open, `no_commit` spawns exactly the
tokens `merge`, `--no-commit`, then `--no-ff` iff the rendered menu
arguments do not already contain `--no-ff`, then the rendered
arguments and the revision; with an empty menu the tokens are
`merge --no-commit --no-ff <rev>`, and with `--no-ff` toggled active
the `--no-ff` token appears exactly once. -/
theorem no_commit_token_assembly (env : Env) (state : State) (rev : String)
    (menu : Menu) (h : state.pending_menu = some menu) :
    (spawnTokens (MergeAction.no_commit env state rev).2 =
      ["merge", "--no-commit"]
        ++ (if "--no-ff" ∈ menu.args then [] else ["--no-ff"])
        ++ menu.args ++ [rev]) ∧
    (menu.args = [] →
      spawnTokens (MergeAction.no_commit env state rev).2 =
        ["merge", "--no-commit", "--no-ff", rev]) ∧
    (menu.args = ["--no-ff"] →
      spawnTokens (MergeAction.no_commit env state rev).2 =
        ["merge", "--no-commit", "--no-ff", rev]) ∧
    (menu.args = ["--no-ff"] → rev ≠ "--no-ff" →
      (spawnTokens (MergeAction.no_commit env state rev).2).count "--no-ff" = 1) := by
  have hmain : spawnTokens (MergeAction.no_commit env state rev).2 =
      ["merge", "--no-commit"]
        ++ (if "--no-ff" ∈ menu.args then [] else ["--no-ff"])
        ++ menu.args ++ [rev] := by
    rcases Classical.em ("--no-ff" ∈ menu.args) with hm | hm
    · have hany : (menu.args.any fun arg => arg == "--no-ff") = true := by
        simp only [List.any_eq_true, beq_iff_eq]
        exact ⟨"--no-ff", hm, rfl⟩
      simp [MergeAction.no_commit, h, spawnTokens, hany, hm]
    · have hany : (menu.args.any fun arg => arg == "--no-ff") = false := by
        simp only [List.any_eq_false, beq_iff_eq]
        intro x hx hcontra
        exact hm (hcontra ▸ hx)
      simp [MergeAction.no_commit, h, spawnTokens, hany, hm]
  refine ⟨hmain, ?_, ?_, ?_⟩
  · intro hempty; rw [hmain, hempty]; simp
  · intro hnoff; rw [hmain, hnoff]; simp
  · intro hnoff hrev
    rw [hmain, hnoff]
    simp [List.count_cons, hrev]

/-- C2 witness: evaluated with an empty menu and with the `--no-ff`
flag toggled active. -/
theorem no_commit_token_assembly_witness :
    spawnTokens (MergeAction.no_commit env0 state0 "main").2 =
      ["merge", "--no-commit", "--no-ff", "main"] ∧
    spawnTokens (MergeAction.no_commit env0 stateNoFF "main").2 =
      ["merge", "--no-commit", "--no-ff", "main"] ∧
    (spawnTokens (MergeAction.no_commit env0 stateNoFF "main").2).count "--no-ff" = 1 :=
  ⟨(no_commit_token_assembly env0 state0 "main" menu0 rfl).2.1 rfl,
   (no_commit_token_assembly env0 stateNoFF "main" menuNoFF rfl).2.2.1 rfl,
   (no_commit_token_assembly env0 stateNoFF "main" menuNoFF rfl).2.2.2 rfl
     (by decide)⟩

/-- C5: with a pending menu open, `plain` and `squash` spawn
asynchronously and their outcome is that of the asynchronous engine,
while `edit` and `no_commit` spawn interactively; `edit` always
passes the `--edit` token, and `squash` composes the same tokens as
`plain` with `--squash` inserted after `merge`. -/
theorem exec_modes_and_composition (env : Env) (state : State) (rev : String)
    (menu : Menu) (h : state.pending_menu = some menu) :
    ((MergeAction.plain env state rev).2 =
       [.close_menu, .spawn_async ("merge" :: (menu.args ++ [rev]))] ∧
     (MergeAction.plain env state rev).1 =
       Outcome.ofExcept (env.runCmdAsync ("merge" :: (menu.args ++ [rev])))) ∧
    ((MergeAction.squash env state rev).2 =
       [.close_menu, .spawn_async ("merge" :: "--squash" :: (menu.args ++ [rev]))] ∧
     (MergeAction.squash env state rev).1 =
       Outcome.ofExcept (env.runCmdAsync ("merge" :: "--squash" :: (menu.args ++ [rev])))) ∧
    ((MergeAction.edit env state rev).2 =
       [.close_menu, .spawn_interactive ("merge" :: "--edit" :: (menu.args ++ [rev]))] ∧
     "--edit" ∈ spawnTokens (MergeAction.edit env state rev).2 ∧
     (MergeAction.edit env state rev).1 =
       Outcome.ofExcept (env.runCmdInteractive ("merge" :: "--edit" :: (menu.args ++ [rev])))) ∧
    (spawnsAsync (MergeAction.plain env state rev).2 = true ∧
     spawnsInteractive (MergeAction.plain env state rev).2 = false) ∧
    (spawnsAsync (MergeAction.squash env state rev).2 = true ∧
     spawnsInteractive (MergeAction.squash env state rev).2 = false) ∧
    (spawnsInteractive (MergeAction.edit env state rev).2 = true ∧
     spawnsAsync (MergeAction.edit env state rev).2 = false) ∧
    (spawnsInteractive (MergeAction.no_commit env state rev).2 = true ∧
     spawnsAsync (MergeAction.no_commit env state rev).2 = false) := by
  simp [MergeAction.plain, MergeAction.squash, MergeAction.edit,
    MergeAction.no_commit, h, spawnTokens, spawnsAsync, spawnsInteractive]

/-- C5 witness: evaluated on the empty pending menu. -/
theorem exec_modes_and_composition_witness :
    (MergeAction.plain env0 state0 "main").2 =
      [.close_menu, .spawn_async ["merge", "main"]] ∧
    (MergeAction.squash env0 state0 "main").2 =
      [.close_menu, .spawn_async ["merge", "--squash", "main"]] ∧
    (MergeAction.edit env0 state0 "main").2 =
      [.close_menu, .spawn_interactive ["merge", "--edit", "main"]] ∧
    spawnsInteractive (MergeAction.no_commit env0 state0 "main").2 = true :=
  ⟨(exec_modes_and_composition env0 state0 "main" menu0 rfl).1.1,
   (exec_modes_and_composition env0 state0 "main" menu0 rfl).2.1.1,
   (exec_modes_and_composition env0 state0 "main" menu0 rfl).2.2.1.1,
   (exec_modes_and_composition env0 state0 "main" menu0 rfl).2.2.2.2.2.2.1⟩

/-- C10: with a pending menu open, none of `plain`, `edit`,
`no_commit`, `squash` panics (their outcome comes from the execution
engine, which returns a result); with no pending menu open, each of
them panics with the `unwrap`-on-`None` message rather than returning
an error. -/
theorem pending_menu_unwrap_safety (env : Env) (state : State) (rev : String) :
    (state.pending_menu.isSome = true →
      (MergeAction.plain env state rev).1.isPanic = false ∧
      (MergeAction.edit env state rev).1.isPanic = false ∧
      (MergeAction.no_commit env state rev).1.isPanic = false ∧
      (MergeAction.squash env state rev).1.isPanic = false) ∧
    (state.pending_menu = none →
      (MergeAction.plain env state rev).1 = .panic unwrapNoneMsg ∧
      (MergeAction.edit env state rev).1 = .panic unwrapNoneMsg ∧
      (MergeAction.no_commit env state rev).1 = .panic unwrapNoneMsg ∧
      (MergeAction.squash env state rev).1 = .panic unwrapNoneMsg ∧
      (MergeAction.plain env state rev).1.isErr = false) := by
  cases h : state.pending_menu with
  | none =>
    simp [MergeAction.plain, MergeAction.edit, MergeAction.no_commit,
      MergeAction.squash, h, Outcome.isErr]
  | some menu =>
    simp [MergeAction.plain, MergeAction.edit, MergeAction.no_commit,
      MergeAction.squash, h, Outcome.ofExcept_isPanic]

/-- C10 witness: evaluated with the menu open (no panic) and with the
menu closed (panic, not an error). -/
theorem pending_menu_unwrap_safety_witness :
    (MergeAction.plain env0 state0 "main").1.isPanic = false ∧
    (MergeAction.plain env0 stateClosed "main").1 = .panic unwrapNoneMsg :=
  ⟨((pending_menu_unwrap_safety env0 state0 "main").1 rfl).1,
   ((pending_menu_unwrap_safety env0 stateClosed "main").2 rfl).1⟩

/-- C3: `dissolve` performs, in order, upstream resolution, push,
checkout of the destination, then the head query; failure of the
upstream resolution (step 1) or the checkout (step 3) aborts the
sequence with that error and no later step appears in the trace; when
HEAD is a named branch the `absorb` continuation runs on that name,
and when HEAD is detached the `edit` continuation runs on the
selected revision. -/
theorem dissolve_step_sequence (env : Env) (state : State) (dst : String) :
    (∀ e, env.upstream_branch_name = .error e →
      MergeAction.dissolve env state dst = (.err e, [.resolve_upstream])) ∧
    (∀ upstream e, env.upstream_branch_name = .ok upstream →
      env.set_upstream_and_push upstream = .ok () →
      env.checkout dst = .error e →
      MergeAction.dissolve env state dst =
        (.err e,
         [.resolve_upstream, .push_upstream upstream, .checkout_branch dst])) ∧
    (∀ upstream name, env.upstream_branch_name = .ok upstream →
      env.set_upstream_and_push upstream = .ok () →
      env.checkout dst = .ok () →
      env.get_head = .ok name →
      MergeAction.dissolve env state dst =
        ((MergeAction.absorb env state name).1,
         [.resolve_upstream, .push_upstream upstream, .checkout_branch dst, .query_head]
           ++ (MergeAction.absorb env state name).2)) ∧
    (∀ upstream e rev, env.upstream_branch_name = .ok upstream →
      env.set_upstream_and_push upstream = .ok () →
      env.checkout dst = .ok () →
      env.get_head = .error e →
      env.selected_rev = some rev →
      MergeAction.dissolve env state dst =
        ((MergeAction.edit env state rev).1,
         [.resolve_upstream, .push_upstream upstream, .checkout_branch dst, .query_head]
           ++ (MergeAction.edit env state rev).2)) := by
  refine ⟨?_, ?_, ?_, ?_⟩
  · intro e h1
    simp [MergeAction.dissolve, h1]
  · intro upstream e h1 h2 h3
    simp [MergeAction.dissolve, h1, h2, h3]
  · intro upstream name h1 h2 h3 h4
    simp [MergeAction.dissolve, h1, h2, h3, h4]
  · intro upstream e rev h1 h2 h3 h4 h5
    simp [MergeAction.dissolve, h1, h2, h3, h4, h5]

/-- C3 witness: the four paths evaluated in concrete environments:
upstream resolution failing, checkout failing, every step succeeding
with a named HEAD (reaching the `absorb` stub), and a detached HEAD
(falling back to `edit` on the selected revision). -/
theorem dissolve_step_sequence_witness :
    MergeAction.dissolve envNoUpstream state0 "main" =
      (.err "no upstream", [.resolve_upstream]) ∧
    MergeAction.dissolve envCheckoutFail state0 "main" =
      (.err "checkout failed",
       [.resolve_upstream, .push_upstream "origin/feature", .checkout_branch "main"]) ∧
    MergeAction.dissolve env0 state0 "main" =
      (.panic todoMsg,
       [.resolve_upstream, .push_upstream "origin/feature", .checkout_branch "main",
        .query_head]) ∧
    MergeAction.dissolve envDetached state0 "main" =
      (.ok,
       [.resolve_upstream, .push_upstream "origin/feature", .checkout_branch "main",
        .query_head, .close_menu, .spawn_interactive ["merge", "--edit", "main"]]) :=
  ⟨(dissolve_step_sequence envNoUpstream state0 "main").1 "no upstream" rfl,
   (dissolve_step_sequence envCheckoutFail state0 "main").2.1
     "origin/feature" "checkout failed" rfl rfl rfl,
   (dissolve_step_sequence env0 state0 "main").2.2.1
     "origin/feature" "feature" rfl rfl rfl rfl,
   (dissolve_step_sequence envDetached state0 "main").2.2.2
     "origin/feature" "head is not a branch" "main" rfl rfl rfl rfl rfl⟩

/-- C1 counterexample: invoking the Absorb continuation panics (the
`todo!()` stub aborts) and does not produce an error result, and
dispatch (`get_action`) yields an ordinary prompt action rather than
any NotImplemented error. -/
theorem absorb_not_implemented_counterexample :
    (MergeAction.absorb env0 state0 "feature").1 = .panic todoMsg ∧
    (MergeAction.absorb env0 state0 "feature").1.isErr = false ∧
    (MergeAction.get_action MergeAction.Absorb none).isSome = true :=
  ⟨rfl, rfl, rfl⟩

/-- C1 amended: dispatching Absorb yields a normal prompt-wrapped
action with no error at dispatch time; invoking the Absorb
continuation panics with the `todo!()` message — an abort, not a
NotImplemented error result — in every environment and state. -/
theorem absorb_panics_amended (env : Env) (state : State) (name : String) :
    MergeAction.absorb env state name = (.panic todoMsg, []) ∧
    (∀ t : Option TargetData,
      MergeAction.get_action MergeAction.Absorb t =
        some (.prompt "Absorb branch" .absorb .latest_local_branch true)) :=
  ⟨rfl, fun _ => rfl⟩

end Gitu
